import Mathlib

/-!
Verification of the GoChart charter-flight service core against its
specification.  The definitions below are a shallow embedding of the
JavaScript source:

* `calculateDistance` / `calculateTripCost` embed the haversine distance
  and trip-cost estimator of `server/routes/trips.js`, with JavaScript
  floating-point numbers modelled as real numbers and `Math.atan2`
  modelled by `jsAtan2`.
* `tripsPost`, `tripsPut`, `tripsDelete` embed the trip route handlers of
  the trips router (the refactored variant: conditional cost recompute and
  automatic actual-time stamping), with the SQLite store modelled as a
  `DB` record of lists.
* `planesDelete` / `pilotsDelete` embed the referential-guarded delete
  handlers (the server variant that blocks deletion whenever any trip
  references the plane or pilot).
* `airportsSearch` embeds the airport search endpoint of
  `server/index.js` (empty list on short queries, case-insensitive
  substring match, at most 10 results, `[longitude, latitude]` pairs).

JavaScript `x || y` on strings/numbers (falsy `""`, `0`, `null`) is
modelled by the `jsOr*` helpers, and `s.toLowerCase()` /
`s.includes(t)` by `jsToLower` / `jsIncludes` on character lists.
-/

namespace GoChart

open Real

/-- JavaScript `Math.atan2 y x`, on exact reals. -/
noncomputable def jsAtan2 (y x : ℝ) : ℝ :=
  if 0 < x then Real.arctan (y / x)
  else if x < 0 then
    (if 0 ≤ y then Real.arctan (y / x) + π else Real.arctan (y / x) - π)
  else if 0 < y then π / 2
  else if y < 0 then -(π / 2)
  else 0

/-- Haversine great-circle distance in nautical miles, from
`calculateDistance` in the trips router: Earth radius `R = 3440.065`,
`a = sin²(Δφ/2) + cos φ1 · cos φ2 · sin²(Δλ/2)`,
`c = 2 · atan2(√a, √(1-a))`, result `R · c`. -/
noncomputable def calculateDistance (lat1 lon1 lat2 lon2 : ℝ) : ℝ :=
  3440.065 *
    (2 * jsAtan2
      (Real.sqrt
        (Real.sin ((lat2 - lat1) * π / 180 / 2) * Real.sin ((lat2 - lat1) * π / 180 / 2) +
          Real.cos (lat1 * π / 180) * Real.cos (lat2 * π / 180) *
            (Real.sin ((lon2 - lon1) * π / 180 / 2) * Real.sin ((lon2 - lon1) * π / 180 / 2))))
      (Real.sqrt
        (1 -
          (Real.sin ((lat2 - lat1) * π / 180 / 2) * Real.sin ((lat2 - lat1) * π / 180 / 2) +
            Real.cos (lat1 * π / 180) * Real.cos (lat2 * π / 180) *
              (Real.sin ((lon2 - lon1) * π / 180 / 2) *
                Real.sin ((lon2 - lon1) * π / 180 / 2))))))

/-- One row of the in-memory airports table loaded from the CSV file. -/
structure Airport where
  icao : String
  iata : String
  name : String
  city : String
  country : String
  lat : ℝ
  lon : ℝ
  elevation : ℤ

/-- `airports.find(a => a.icao === code)`. -/
def findAirport (airports : List Airport) (code : String) : Option Airport :=
  airports.find? (fun a => a.icao == code)

/-- Result object of `calculateTripCost`. -/
structure CostResult where
  estimated_fuel_cost : ℤ
  estimated_total_cost : ℤ
  deriving Repr, DecidableEq

/-- `calculateTripCost` from the trips router.  It first rejects an invalid
engine count, then resolves both airports, then computes
`fuelNeeded = (220 · numEngines / 500) · distance`,
`fuelCost = fuelNeeded · 6`, and returns
`{round fuelCost, round (fuelCost · 1.25)}`.  Thrown errors are modelled
by `Except.error` carrying the thrown message. -/
noncomputable def calculateTripCost (airports : List Airport)
    (departure_airport arrival_airport : String) (num_engines : ℤ) :
    Except String CostResult :=
  if num_engines < 1 then .error "Invalid number of engines"
  else
    match findAirport airports departure_airport, findAirport airports arrival_airport with
    | some depAirport, some arrAirport =>
        .ok
          { estimated_fuel_cost :=
              round ((220 * (num_engines : ℝ) / 500 *
                calculateDistance depAirport.lat depAirport.lon arrAirport.lat arrAirport.lon) * 6)
            estimated_total_cost :=
              round (((220 * (num_engines : ℝ) / 500 *
                calculateDistance depAirport.lat depAirport.lon arrAirport.lat arrAirport.lon) * 6) *
                1.25) }
    | _, _ => .error "Could not find airport coordinates"

/-! ### The record store -/

/-- A row of the `planes` table (the columns the embedded routes read). -/
structure Plane where
  id : ℕ
  user_id : ℕ
  tail_number : String
  num_engines : ℤ
  deriving Repr, DecidableEq

/-- A row of the `pilots` table. -/
structure Pilot where
  id : ℕ
  user_id : ℕ
  name : String
  deriving Repr, DecidableEq

/-- A row of the `trips` table.  Nullable columns are `Option`s. -/
structure Trip where
  id : ℕ
  user_id : ℕ
  departure_airport : String
  arrival_airport : String
  plane_id : ℕ
  pilot_id : Option ℕ
  departure_time : String
  estimated_arrival_time : Option String
  actual_departure_time : Option String
  actual_arrival_time : Option String
  status : String
  estimated_fuel_cost : ℤ
  estimated_total_cost : ℤ
  deriving Repr, DecidableEq

/-- The SQLite database, as lists of rows plus the trips autoincrement
counter. -/
structure DB where
  planes : List Plane
  pilots : List Pilot
  trips : List Trip
  nextTripId : ℕ
  deriving Repr, DecidableEq

/-- `SELECT * FROM planes WHERE id = ? AND user_id = ?`. -/
def getPlaneById (db : DB) (planeId userId : ℕ) : Option Plane :=
  db.planes.find? (fun p => p.id == planeId && p.user_id == userId)

/-- `SELECT * FROM trips WHERE id = ? AND user_id = ?`. -/
def getTripById (db : DB) (tripId userId : ℕ) : Option Trip :=
  db.trips.find? (fun t => t.id == tripId && t.user_id == userId)

/-! ### JavaScript helpers -/

/-- JavaScript `body || existing` where `body` is an optional request
string field ("" and absent are falsy) and `existing` a string. -/
def jsOrStr (body : Option String) (existing : String) : String :=
  match body with
  | some s => if s = "" then existing else s
  | none => existing

/-- JavaScript `body || existing` where `existing` is a nullable column. -/
def jsOrOptStr (body existing : Option String) : Option String :=
  match body with
  | some s => if s = "" then existing else some s
  | none => existing

/-- JavaScript `body || existing` on numeric ids (`0` is falsy). -/
def jsOrNat (body : Option ℕ) (existing : ℕ) : ℕ :=
  match body with
  | some n => if n = 0 then existing else n
  | none => existing

/-- JavaScript `pilot_id || null` (`0` is falsy). -/
def jsPilotIdOrNull (pilotId : Option ℕ) : Option ℕ :=
  match pilotId with
  | some 0 => none
  | x => x

/-- JavaScript truthiness of a nullable string column value. -/
def jsTruthy (v : Option String) : Bool :=
  match v with
  | none => false
  | some s => s != ""

/-! ### Trip routes (refactored trips router variant) -/

/-- Body of `POST /api/trips`.  Absent string fields are `""`, the absent
`plane_id` is `0` (both JavaScript-falsy). -/
structure TripCreateBody where
  departure_airport : String
  arrival_airport : String
  plane_id : ℕ
  pilot_id : Option ℕ
  departure_time : String

/-- Body of `PUT /api/trips/:id`: any subset of fields may be supplied.
`pilot_id` is doubly optional, matching the source's
`'pilot_id' in req.body` check. -/
structure TripUpdateBody where
  departure_airport : Option String
  arrival_airport : Option String
  plane_id : Option ℕ
  pilot_id : Option (Option ℕ)
  departure_time : Option String
  status : Option String
  estimated_arrival_time : Option String
  actual_departure_time : Option String
  actual_arrival_time : Option String

/-- The merged `updates` object built by the trip update handler. -/
structure TripUpdates where
  departure_airport : String
  arrival_airport : String
  plane_id : ℕ
  pilot_id : Option ℕ
  departure_time : String
  status : String
  estimated_arrival_time : Option String
  actual_departure_time : Option String
  actual_arrival_time : Option String

/-- The `updates` merge of `PUT /api/trips/:id`: every supplied (truthy)
field wins, otherwise the stored value is kept; `pilot_id` is taken from
the body whenever the key is present. -/
def mergeUpdates (existingTrip : Trip) (body : TripUpdateBody) : TripUpdates :=
  { departure_airport := jsOrStr body.departure_airport existingTrip.departure_airport
    arrival_airport := jsOrStr body.arrival_airport existingTrip.arrival_airport
    plane_id := jsOrNat body.plane_id existingTrip.plane_id
    pilot_id :=
      match body.pilot_id with
      | some v => v
      | none => existingTrip.pilot_id
    departure_time := jsOrStr body.departure_time existingTrip.departure_time
    status := jsOrStr body.status existingTrip.status
    estimated_arrival_time :=
      jsOrOptStr body.estimated_arrival_time existingTrip.estimated_arrival_time
    actual_departure_time :=
      jsOrOptStr body.actual_departure_time existingTrip.actual_departure_time
    actual_arrival_time :=
      jsOrOptStr body.actual_arrival_time existingTrip.actual_arrival_time }

/-- `POST /api/trips` (trips router): validate required fields, resolve the
plane, compute costs (aborting on failure), estimate the arrival time as
departure plus two hours (`estimateArrival` abstracts the ISO-string date
arithmetic), and insert the row with `status = 'scheduled'`. -/
noncomputable def tripsPost (estimateArrival : String → String) (airports : List Airport)
    (db : DB) (userId : ℕ) (body : TripCreateBody) :
    Except (ℕ × String) Trip × DB :=
  if body.departure_airport = "" ∨ body.arrival_airport = "" ∨ body.plane_id = 0 ∨
      body.departure_time = "" then
    (.error (400, "Missing required fields"), db)
  else
    match getPlaneById db body.plane_id userId with
    | none => (.error (404, "Plane not found"), db)
    | some plane =>
      match calculateTripCost airports body.departure_airport body.arrival_airport
          plane.num_engines with
      | .error m => (.error (400, "Could not calculate trip cost: " ++ m), db)
      | .ok costs =>
        let trip : Trip :=
          { id := db.nextTripId
            user_id := userId
            departure_airport := body.departure_airport
            arrival_airport := body.arrival_airport
            plane_id := body.plane_id
            pilot_id := jsPilotIdOrNull body.pilot_id
            departure_time := body.departure_time
            estimated_arrival_time := some (estimateArrival body.departure_time)
            actual_departure_time := none
            actual_arrival_time := none
            status := "scheduled"
            estimated_fuel_cost := costs.estimated_fuel_cost
            estimated_total_cost := costs.estimated_total_cost }
        (.ok trip, { db with trips := db.trips ++ [trip], nextTripId := db.nextTripId + 1 })

/-- The trip row written back by `PUT /api/trips/:id`: every merged field,
the given costs, and the actual-time stamping (`actual_departure_time`
is set to the current time on a transition to `departed` when the merged
value is falsy, and likewise `actual_arrival_time` for `arrived`). -/
def writtenTrip (existingTrip : Trip) (body : TripUpdateBody) (now : String)
    (costs : CostResult) : Trip :=
  { id := existingTrip.id
    user_id := existingTrip.user_id
    departure_airport := (mergeUpdates existingTrip body).departure_airport
    arrival_airport := (mergeUpdates existingTrip body).arrival_airport
    plane_id := (mergeUpdates existingTrip body).plane_id
    pilot_id := (mergeUpdates existingTrip body).pilot_id
    departure_time := (mergeUpdates existingTrip body).departure_time
    estimated_arrival_time := (mergeUpdates existingTrip body).estimated_arrival_time
    actual_departure_time :=
      if (mergeUpdates existingTrip body).status = "departed" ∧
          jsTruthy (mergeUpdates existingTrip body).actual_departure_time = false
      then some now else (mergeUpdates existingTrip body).actual_departure_time
    actual_arrival_time :=
      if (mergeUpdates existingTrip body).status = "arrived" ∧
          jsTruthy (mergeUpdates existingTrip body).actual_arrival_time = false
      then some now else (mergeUpdates existingTrip body).actual_arrival_time
    status := (mergeUpdates existingTrip body).status
    estimated_fuel_cost := costs.estimated_fuel_cost
    estimated_total_cost := costs.estimated_total_cost }

/-- `PUT /api/trips/:id` (trips router, conditional-recompute variant):
merge the body over the stored trip, resolve the (possibly new) plane,
recompute costs only when departure airport, arrival airport or plane
changed, stamp `actual_departure_time` / `actual_arrival_time` with the
current time on a transition to `departed` / `arrived` when unset, and
write every merged field back. -/
noncomputable def tripsPut (airports : List Airport) (db : DB) (userId tripId : ℕ)
    (body : TripUpdateBody) (now : String) :
    Except (ℕ × String) Trip × DB :=
  match getTripById db tripId userId with
  | none => (.error (404, "Trip not found or unauthorized"), db)
  | some existingTrip =>
    let updates := mergeUpdates existingTrip body
    match getPlaneById db updates.plane_id userId with
    | none => (.error (404, "Plane not found"), db)
    | some plane =>
      let costsE : Except String CostResult :=
        if updates.departure_airport ≠ existingTrip.departure_airport ∨
            updates.arrival_airport ≠ existingTrip.arrival_airport ∨
            updates.plane_id ≠ existingTrip.plane_id then
          calculateTripCost airports updates.departure_airport updates.arrival_airport
            plane.num_engines
        else
          .ok { estimated_fuel_cost := existingTrip.estimated_fuel_cost
                estimated_total_cost := existingTrip.estimated_total_cost }
      match costsE with
      | .error m => (.error (400, "Could not recalculate trip cost: " ++ m), db)
      | .ok costs =>
        (.ok (writtenTrip existingTrip body now costs),
          { db with
              trips := db.trips.map
                (fun tr => if tr.id == tripId && tr.user_id == userId
                  then writtenTrip existingTrip body now costs else tr) })

/-- `DELETE /api/trips/:id`: the trip may be deleted only while its status
is `scheduled`; otherwise the lookup fails and nothing is removed. -/
def tripsDelete (db : DB) (userId tripId : ℕ) :
    Except (ℕ × String) String × DB :=
  match db.trips.find?
      (fun t => t.id == tripId && t.user_id == userId && t.status == "scheduled") with
  | none => (.error (404, "Trip not found or cannot be deleted"), db)
  | some _ =>
    (.ok "Trip deleted successfully",
      { db with trips := db.trips.filter (fun t => !(t.id == tripId && t.user_id == userId)) })

/-- `DELETE /api/planes/:id` (guarded variant): blocked while any trip in
any status references the plane, otherwise the owner's plane row is
removed. -/
def planesDelete (db : DB) (userId planeId : ℕ) :
    Except (ℕ × String) String × DB :=
  if (db.trips.filter (fun t => t.plane_id == planeId)).length > 0 then
    (.error (400, "Cannot delete plane with associated trips"), db)
  else if db.planes.any (fun p => p.id == planeId && p.user_id == userId) then
    (.ok "Plane deleted successfully",
      { db with planes := db.planes.filter (fun p => !(p.id == planeId && p.user_id == userId)) })
  else (.error (404, "Plane not found or not deleted"), db)

/-- `DELETE /api/pilots/:id` (guarded variant): blocked while any trip
references the pilot. -/
def pilotsDelete (db : DB) (userId pilotId : ℕ) :
    Except (ℕ × String) String × DB :=
  if (db.trips.filter (fun t => t.pilot_id == some pilotId)).length > 0 then
    (.error (400, "Cannot delete pilot with associated trips"), db)
  else if db.pilots.any (fun p => p.id == pilotId && p.user_id == userId) then
    (.ok "Pilot deleted successfully",
      { db with pilots := db.pilots.filter (fun p => !(p.id == pilotId && p.user_id == userId)) })
  else (.error (404, "Pilot not found or not deleted"), db)


/-! ### Concrete fixtures -/

/-- The KJFK airport row of the concrete scenario. -/
noncomputable def KJFK : Airport :=
  { icao := "KJFK", iata := "JFK", name := "John F Kennedy International Airport",
    city := "New York", country := "US", lat := 40.6398, lon := -73.7789, elevation := 13 }

/-- The KLAX airport row of the concrete scenario. -/
noncomputable def KLAX : Airport :=
  { icao := "KLAX", iata := "LAX", name := "Los Angeles International Airport",
    city := "Los Angeles", country := "US", lat := 33.9425, lon := -118.4081, elevation := 125 }

/-- A two-airport catalog for the concrete scenario. -/
noncomputable def testAirports : List Airport := [KJFK, KLAX]

/-- A plane fixture used by the concrete store scenarios. -/
def witnessPlane : Plane := { id := 1, user_id := 7, tail_number := "N101", num_engines := 2 }

/-- A store holding just the one plane. -/
def planeOnlyDB : DB := { planes := [witnessPlane], pilots := [], trips := [], nextTripId := 1 }

/-- A scheduled trip fixture. -/
def scheduledTrip : Trip :=
  { id := 10, user_id := 7, departure_airport := "KJFK", arrival_airport := "KLAX",
    plane_id := 1, pilot_id := none, departure_time := "2024-01-01T00:00:00Z",
    estimated_arrival_time := some "2024-01-01T02:00:00Z",
    actual_departure_time := none, actual_arrival_time := none,
    status := "scheduled", estimated_fuel_cost := 11330, estimated_total_cost := 14163 }

/-- A store holding one plane and the scheduled trip. -/
def tripDB : DB :=
  { planes := [witnessPlane], pilots := [], trips := [scheduledTrip], nextTripId := 11 }

/-- An update request that supplies no field at all. -/
def emptyUpdateBody : TripUpdateBody :=
  { departure_airport := none, arrival_airport := none, plane_id := none, pilot_id := none,
    departure_time := none, status := none, estimated_arrival_time := none,
    actual_departure_time := none, actual_arrival_time := none }

/-- An update request supplying only `status = "departed"`. -/
def departedBody : TripUpdateBody :=
  { departure_airport := none, arrival_airport := none, plane_id := none, pilot_id := none,
    departure_time := none, status := some "departed", estimated_arrival_time := none,
    actual_departure_time := none, actual_arrival_time := none }

/-- An update request supplying only `status = "scheduled"`. -/
def rescheduleBody : TripUpdateBody :=
  { departure_airport := none, arrival_airport := none, plane_id := none, pilot_id := none,
    departure_time := none, status := some "scheduled", estimated_arrival_time := none,
    actual_departure_time := none, actual_arrival_time := none }

/-- An arrived trip fixture. -/
def arrivedTrip : Trip :=
  { id := 10, user_id := 7, departure_airport := "KJFK", arrival_airport := "KLAX",
    plane_id := 1, pilot_id := none, departure_time := "2024-01-01T00:00:00Z",
    estimated_arrival_time := some "2024-01-01T02:00:00Z",
    actual_departure_time := some "2024-01-01T00:05:00Z",
    actual_arrival_time := some "2024-01-01T05:40:00Z",
    status := "arrived", estimated_fuel_cost := 11330, estimated_total_cost := 14163 }

/-- A store holding the plane and the arrived trip. -/
def arrivedDB : DB :=
  { planes := [witnessPlane], pilots := [], trips := [arrivedTrip], nextTripId := 11 }

/-- A departed trip fixture (distinct id from the scheduled one). -/
def departedTrip : Trip :=
  { id := 11, user_id := 7, departure_airport := "KJFK", arrival_airport := "KLAX",
    plane_id := 1, pilot_id := none, departure_time := "2024-01-02T00:00:00Z",
    estimated_arrival_time := some "2024-01-02T02:00:00Z",
    actual_departure_time := some "2024-01-02T00:03:00Z", actual_arrival_time := none,
    status := "departed", estimated_fuel_cost := 11330, estimated_total_cost := 14163 }

/-- A store holding a scheduled and a departed trip. -/
def mixedDB : DB :=
  { planes := [witnessPlane], pilots := [], trips := [scheduledTrip, departedTrip],
    nextTripId := 12 }

/-- A pilot fixture. -/
def pilotOne : Pilot := { id := 1, user_id := 7, name := "Pat" }

/-- A store with one plane and one pilot and no trips. -/
def cleanDB : DB :=
  { planes := [witnessPlane], pilots := [pilotOne], trips := [], nextTripId := 1 }

/-! ### Airport search (`server/index.js` variant) -/

/-- JavaScript `s.toLowerCase()`, as a character list. -/
def jsToLower (s : String) : List Char :=
  s.toList.map Char.toLower

/-- Does the character list `s` start with `t`? -/
def listStartsWith : List Char → List Char → Bool
  | _, [] => true
  | [], _ :: _ => false
  | c :: s, d :: t => c == d && listStartsWith s t

/-- JavaScript `s.includes (t)` on character lists: `t` occurs as a
contiguous substring of `s`. -/
def jsIncludes (s t : List Char) : Bool :=
  match s with
  | [] => t.isEmpty
  | _ :: s1 => listStartsWith s t || jsIncludes s1 t

/-- One element of the search response (`server/index.js` shape). -/
structure AirportSearchResult where
  icao : String
  name : String
  city : String
  country : String
  coordinates : ℝ × ℝ

/-- `GET /api/airports/search` from `server/index.js`: a query shorter
than two characters yields `[]` (as a 200 response), otherwise the
case-insensitive substring filter over icao/name/iata/city, truncated to
10 results, mapped to `[longitude, latitude]` coordinate pairs. -/
def airportsSearch (airports : List Airport) (query : String) :
    Except (ℕ × String) (List AirportSearchResult) :=
  if query = "" ∨ query.length < 2 then .ok []
  else
    .ok
      (((airports.filter (fun airport =>
          jsIncludes (jsToLower airport.icao) (jsToLower query) ||
          jsIncludes (jsToLower airport.name) (jsToLower query) ||
          (airport.iata != "" && jsIncludes (jsToLower airport.iata) (jsToLower query)) ||
          jsIncludes (jsToLower airport.city) (jsToLower query))).take 10).map
        (fun airport =>
          { icao := airport.icao
            name := airport.name
            city := airport.city
            country := airport.country
            coordinates := (airport.lon, airport.lat) }))

/-- The search contract as the specification words it: the airports whose
ICAO, IATA, name, or city contains the query as a case-insensitive
substring, truncated to at most 10 results, with `[longitude, latitude]`
coordinates; the empty list below two characters. -/
def airportsSearchSpec (airports : List Airport) (query : String) :
    List AirportSearchResult :=
  if query.length < 2 then []
  else
    ((airports.filter (fun airport =>
        jsIncludes (jsToLower airport.icao) (jsToLower query) ||
        jsIncludes (jsToLower airport.iata) (jsToLower query) ||
        jsIncludes (jsToLower airport.name) (jsToLower query) ||
        jsIncludes (jsToLower airport.city) (jsToLower query))).take 10).map
      (fun airport =>
        { icao := airport.icao
          name := airport.name
          city := airport.city
          country := airport.country
          coordinates := (airport.lon, airport.lat) })

/-! ### Interval-arithmetic toolkit for the concrete cost evaluation

The haversine distance of the concrete KJFK-KLAX scenario is bounded by
propagating rational intervals through Taylor bounds on sine and cosine
(`Real.sin_bound` / `Real.cos_bound` at a 16-fold halved leaf angle,
then the double-angle formulas), and the `atan2` call is bracketed by
comparing the haversine `a` value against the squared sines of two
rational angles. -/


theorem sin_leaf (x lo hi slo shi : ℝ) (h1 : lo ≤ x) (h2 : x ≤ hi)
    (h0 : 0 ≤ lo) (h3 : hi ≤ 1)
    (e1 : slo ≤ lo - lo^3/6 - hi^4*(5/96)) (e2 : hi - hi^3/6 + hi^4*(5/96) ≤ shi) :
    slo ≤ Real.sin x ∧ Real.sin x ≤ shi := by
  have hxabs : |x| ≤ 1 := abs_le.2 ⟨by linarith, by linarith⟩
  have hb1 := (abs_sub_le_iff.1 (Real.sin_bound hxabs)).1
  have hb2 := (abs_sub_le_iff.1 (Real.sin_bound hxabs)).2
  have habs : |x| = x := abs_of_nonneg (by linarith)
  rw [habs] at hb1 hb2
  have hx0 : 0 ≤ x := le_trans h0 h1
  have hx4 : x^4 ≤ hi^4 := pow_le_pow_left₀ hx0 h2 4
  have hmono1 : lo - lo^3/6 ≤ x - x^3/6 := by
    nlinarith [mul_nonneg (sub_nonneg.2 h1)
      (by nlinarith : (0:ℝ) ≤ 6 - (x*x + x*lo + lo*lo))]
  have hmono2 : x - x^3/6 ≤ hi - hi^3/6 := by
    nlinarith [mul_nonneg (sub_nonneg.2 h2)
      (by nlinarith : (0:ℝ) ≤ 6 - (hi*hi + hi*x + x*x))]
  constructor <;> nlinarith

theorem cos_leaf (x lo hi clo chi : ℝ) (h1 : lo ≤ x) (h2 : x ≤ hi)
    (h0 : 0 ≤ lo) (h3 : hi ≤ 1)
    (e1 : clo ≤ 1 - hi^2/2 - hi^4*(5/96)) (e2 : 1 - lo^2/2 + hi^4*(5/96) ≤ chi) :
    clo ≤ Real.cos x ∧ Real.cos x ≤ chi := by
  have hxabs : |x| ≤ 1 := abs_le.2 ⟨by linarith, by linarith⟩
  have hb1 := (abs_sub_le_iff.1 (Real.cos_bound hxabs)).1
  have hb2 := (abs_sub_le_iff.1 (Real.cos_bound hxabs)).2
  have habs : |x| = x := abs_of_nonneg (by linarith)
  rw [habs] at hb1 hb2
  have hx0 : 0 ≤ x := le_trans h0 h1
  have hx4 : x^4 ≤ hi^4 := pow_le_pow_left₀ hx0 h2 4
  have hq1 : x^2 ≤ hi^2 := pow_le_pow_left₀ hx0 h2 2
  have hq2 : lo^2 ≤ x^2 := pow_le_pow_left₀ h0 h1 2
  constructor <;> nlinarith

theorem sin_cos_double (y w sl sh cl ch sl2 sh2 cl2 ch2 : ℝ) (hw : w = 2*y)
    (hs : sl ≤ Real.sin y ∧ Real.sin y ≤ sh) (hc : cl ≤ Real.cos y ∧ Real.cos y ≤ ch)
    (h0s : 0 ≤ sl) (h0c : 0 ≤ cl)
    (e1 : sl2 ≤ 2*sl*cl) (e2 : 2*sh*ch ≤ sh2)
    (e3 : cl2 ≤ 1 - 2*sh^2) (e4 : 1 - 2*sl^2 ≤ ch2) :
    (sl2 ≤ Real.sin w ∧ Real.sin w ≤ sh2) ∧ (cl2 ≤ Real.cos w ∧ Real.cos w ≤ ch2) := by
  obtain ⟨hs1, hs2⟩ := hs
  obtain ⟨hc1, hc2⟩ := hc
  subst hw
  rw [Real.sin_two_mul, Real.cos_two_mul]
  have hpyth := Real.sin_sq_add_cos_sq y
  have hs0 : 0 ≤ Real.sin y := le_trans h0s hs1
  have hc0 : 0 ≤ Real.cos y := le_trans h0c hc1
  refine ⟨⟨?_, ?_⟩, ?_, ?_⟩
  · nlinarith [mul_nonneg (sub_nonneg.2 hs1) (sub_nonneg.2 hc1),
      mul_nonneg h0s (sub_nonneg.2 hc1), mul_nonneg h0c (sub_nonneg.2 hs1)]
  · nlinarith [mul_nonneg (sub_nonneg.2 hs2) hc0,
      mul_nonneg (le_trans hs0 hs2) (sub_nonneg.2 hc2)]
  · nlinarith [mul_nonneg (sub_nonneg.2 hs2) (add_nonneg hs0 (le_trans hs0 hs2))]
  · nlinarith [mul_nonneg (sub_nonneg.2 hs1) (add_nonneg h0s hs0)]

theorem mul_bounds (x y xl xh yl yh zl zh : ℝ)
    (hx : xl ≤ x ∧ x ≤ xh) (hy : yl ≤ y ∧ y ≤ yh) (h0x : 0 ≤ xl) (h0y : 0 ≤ yl)
    (e1 : zl ≤ xl*yl) (e2 : xh*yh ≤ zh) :
    zl ≤ x*y ∧ x*y ≤ zh := by
  obtain ⟨hx1, hx2⟩ := hx
  obtain ⟨hy1, hy2⟩ := hy
  have hx0 : 0 ≤ x := le_trans h0x hx1
  have hy0 : 0 ≤ y := le_trans h0y hy1
  constructor
  · nlinarith [mul_nonneg (sub_nonneg.2 hx1) (sub_nonneg.2 hy1),
      mul_nonneg h0x (sub_nonneg.2 hy1), mul_nonneg h0y (sub_nonneg.2 hx1)]
  · nlinarith [mul_nonneg (sub_nonneg.2 hx2) hy0,
      mul_nonneg (le_trans hx0 hx2) (sub_nonneg.2 hy2)]

theorem arctan_sqrt_lt {a th : ℝ} (ha0 : 0 < a) (ha1 : a < 1)
    (hth0 : 0 < th) (hth : th < π/2) (h : Real.sin th ^ 2 < a) :
    th < Real.arctan (Real.sqrt a / Real.sqrt (1 - a)) := by
  have hc : 0 < Real.cos th := Real.cos_pos_of_mem_Ioo ⟨by linarith [Real.pi_div_two_pos], hth⟩
  have h1a : (0:ℝ) < 1 - a := by linarith
  have hsa : Real.sqrt a ^ 2 = a := Real.sq_sqrt ha0.le
  have hs1a : Real.sqrt (1-a) ^ 2 = 1 - a := Real.sq_sqrt h1a.le
  have hs1apos : 0 < Real.sqrt (1-a) := Real.sqrt_pos.2 h1a
  have hsann : 0 ≤ Real.sqrt a := Real.sqrt_nonneg a
  have hpy := Real.sin_sq_add_cos_sq th
  have key : Real.sin th * Real.sqrt (1-a) < Real.sqrt a * Real.cos th := by
    have h2 : (Real.sin th * Real.sqrt (1-a))^2 < (Real.sqrt a * Real.cos th)^2 := by
      rw [mul_pow, mul_pow, hsa, hs1a]; nlinarith
    exact lt_of_pow_lt_pow_left₀ 2 (mul_nonneg hsann hc.le) h2
  have htlt : Real.tan th < Real.sqrt a / Real.sqrt (1-a) := by
    rw [Real.tan_eq_sin_div_cos, div_lt_div_iff₀ hc hs1apos]
    nlinarith
  calc th = Real.arctan (Real.tan th) :=
        (Real.arctan_tan (by linarith [Real.pi_div_two_pos]) hth).symm
    _ < _ := Real.arctan_strictMono htlt

theorem lt_arctan_sqrt {a th : ℝ} (ha0 : 0 < a) (ha1 : a < 1)
    (hth0 : 0 < th) (hth : th < π/2) (h : a < Real.sin th ^ 2) :
    Real.arctan (Real.sqrt a / Real.sqrt (1 - a)) < th := by
  have hc : 0 < Real.cos th := Real.cos_pos_of_mem_Ioo ⟨by linarith [Real.pi_div_two_pos], hth⟩
  have hs : 0 < Real.sin th :=
    Real.sin_pos_of_pos_of_lt_pi hth0 (by linarith [Real.pi_pos])
  have h1a : (0:ℝ) < 1 - a := by linarith
  have hsa : Real.sqrt a ^ 2 = a := Real.sq_sqrt ha0.le
  have hs1a : Real.sqrt (1-a) ^ 2 = 1 - a := Real.sq_sqrt h1a.le
  have hs1apos : 0 < Real.sqrt (1-a) := Real.sqrt_pos.2 h1a
  have hsann : 0 ≤ Real.sqrt a := Real.sqrt_nonneg a
  have hpy := Real.sin_sq_add_cos_sq th
  have key : Real.sqrt a * Real.cos th < Real.sin th * Real.sqrt (1-a) := by
    have h2 : (Real.sqrt a * Real.cos th)^2 < (Real.sin th * Real.sqrt (1-a))^2 := by
      rw [mul_pow, mul_pow, hsa, hs1a]; nlinarith
    exact lt_of_pow_lt_pow_left₀ 2 (mul_nonneg hs.le hs1apos.le) h2
  have htlt : Real.sqrt a / Real.sqrt (1-a) < Real.tan th := by
    rw [Real.tan_eq_sin_div_cos, div_lt_div_iff₀ hs1apos hc]
    nlinarith
  calc Real.arctan (Real.sqrt a / Real.sqrt (1-a)) < Real.arctan (Real.tan th) :=
        Real.arctan_strictMono htlt
    _ = th := Real.arctan_tan (by linarith [Real.pi_div_two_pos]) hth

/-- Interval bounds for the sine of half the latitude difference in the concrete KJFK-KLAX scenario. -/
theorem sinA_bounds :
    (0.058411087440236:ℝ) ≤ Real.sin (3.34865 * (π / 180)) ∧ Real.sin (3.34865 * (π / 180)) ≤ 0.058412302834741 := by
  exact sin_leaf (3.34865 * (π / 180)) 0.058444967996908 0.058444967996909 0.058411087440236 0.058412302834741
    (by nlinarith [Real.pi_gt_d20, Real.pi_lt_d20]) (by nlinarith [Real.pi_gt_d20, Real.pi_lt_d20])
    (by norm_num) (by norm_num) (by norm_num) (by norm_num)

/-- Interval bounds for the cosine of the KJFK latitude in radians. -/
theorem cosB_bounds :
    (0.758816783105517:ℝ) ≤ Real.cos (40.6398 * π / 180) ∧ Real.cos (40.6398 * π / 180) ≤ 0.758821536558482 := by
  have h0 := sin_leaf (40.6398 * (π / 2880)) 0.044331144834499 0.0443311448345 0.044316423377735 0.04431682569119
    (by nlinarith [Real.pi_gt_d20, Real.pi_lt_d20]) (by nlinarith [Real.pi_gt_d20, Real.pi_lt_d20])
    (by norm_num) (by norm_num) (by norm_num) (by norm_num)
  have g0 := cos_leaf (40.6398 * (π / 2880)) 0.044331144834499 0.0443311448345 0.999017173642105 0.999017575955558
    (by nlinarith [Real.pi_gt_d20, Real.pi_lt_d20]) (by nlinarith [Real.pi_gt_d20, Real.pi_lt_d20])
    (by norm_num) (by norm_num) (by norm_num) (by norm_num)
  have h1g1 := sin_cos_double (40.6398 * (π / 2880)) (40.6398 * (π / 1440))
    0.044316423377735 0.04431682569119 0.999017173642105 0.999017575955558 0.088545736057503 0.088546575552116 0.996072037921313 0.996072109238011
    (by ring : (40.6398:ℝ) * (π / 1440) = 2 * (40.6398 * (π / 2880)))
    h0 g0 (by norm_num) (by norm_num) (by norm_num) (by norm_num) (by norm_num) (by norm_num)
  have h1 := h1g1.1
  have g1 := h1g1.2
  have h2g2 := sin_cos_double (40.6398 * (π / 1440)) (40.6398 * (π / 720))
    0.088545736057503 0.088546575552116 0.996072037921313 0.996072109238011 0.176395863528079 0.176397548551999 0.984319007915986 0.984319305252071
    (by ring : (40.6398:ℝ) * (π / 720) = 2 * (40.6398 * (π / 1440)))
    h1 g1 (by norm_num) (by norm_num) (by norm_num) (by norm_num) (by norm_num) (by norm_num)
  have h2 := h2g2.1
  have g2 := h2g2.2
  have h3g3 := sin_cos_double (40.6398 * (π / 720)) (40.6398 * (π / 360))
    0.176395863528079 0.176397548551999 0.984319007915986 0.984319305252071 0.347259602776884 0.347263024877745 0.93776780972969 0.937768998660367
    (by ring : (40.6398:ℝ) * (π / 360) = 2 * (40.6398 * (π / 720)))
    h2 g2 (by norm_num) (by norm_num) (by norm_num) (by norm_num) (by norm_num) (by norm_num)
  have h3 := h3g3.1
  have g3 := h3g3.2
  have h4g4 := sin_cos_double (40.6398 * (π / 360)) (40.6398 * π / 180)
    0.347259602776884 0.347263024877745 0.93776780972969 0.937768998660367 0.651297754207361 0.651304998222747 0.758816783105517 0.758821536558482
    (by ring : (40.6398 * π / 180:ℝ) = 2 * (40.6398 * (π / 360)))
    h3 g3 (by norm_num) (by norm_num) (by norm_num) (by norm_num) (by norm_num) (by norm_num)
  have h4 := h4g4.1
  have g4 := h4g4.2
  exact g4

/-- Interval bounds for the cosine of the KLAX latitude in radians. -/
theorem cosC_bounds :
    (0.829597412140758:ℝ) ≤ Real.cos (33.9425 * π / 180) ∧ Real.cos (33.9425 * π / 180) ≤ 0.82959933251919 := by
  have h0 := sin_leaf (33.9425 * (π / 2880)) 0.037025523834885 0.037025523834886 0.037016966302921 0.037017162067276
    (by nlinarith [Real.pi_gt_d20, Real.pi_lt_d20]) (by nlinarith [Real.pi_gt_d20, Real.pi_lt_d20])
    (by norm_num) (by norm_num) (by norm_num) (by norm_num)
  have g0 := cos_leaf (33.9425 * (π / 2880)) 0.037025523834885 0.037025523834886 0.999314457410199 0.999314653174553
    (by nlinarith [Real.pi_gt_d20, Real.pi_lt_d20]) (by nlinarith [Real.pi_gt_d20, Real.pi_lt_d20])
    (by norm_num) (by norm_num) (by norm_num) (by norm_num)
  have h1g1 := sin_cos_double (33.9425 * (π / 2880)) (33.9425 * (π / 1440))
    0.037016966302921 0.037017162067276 0.999314457410199 0.999314653174553 0.07398317919195 0.073983584945533 0.99725945942497 0.997259488411457
    (by ring : (33.9425:ℝ) * (π / 1440) = 2 * (33.9425 * (π / 2880)))
    h0 g0 (by norm_num) (by norm_num) (by norm_num) (by norm_num) (by norm_num) (by norm_num)
  have h1 := h1g1.1
  have g1 := h1g1.2
  have h2g2 := sin_cos_double (33.9425 * (π / 1440)) (33.9425 * (π / 720))
    0.07398317919195 0.073983584945533 0.99725945942497 0.997259488411457 0.147560850575009 0.147561664147256 0.989052858317214 0.989052978393304
    (by ring : (33.9425:ℝ) * (π / 720) = 2 * (33.9425 * (π / 1440)))
    h1 g1 (by norm_num) (by norm_num) (by norm_num) (by norm_num) (by norm_num) (by norm_num)
  have h2 := h2g2.1
  have g2 := h2g2.2
  have h3g3 := sin_cos_double (33.9425 * (π / 720)) (33.9425 * (π / 360))
    0.147560850575009 0.147561664147256 0.989052858317214 0.989052978393304 0.291890962073863 0.291892606843032 0.956451110548184 0.95645159075516
    (by ring : (33.9425:ℝ) * (π / 360) = 2 * (33.9425 * (π / 720)))
    h2 g2 (by norm_num) (by norm_num) (by norm_num) (by norm_num) (by norm_num) (by norm_num)
  have h3 := h3g3.1
  have g3 := h3g3.2
  have h4g4 := sin_cos_double (33.9425 * (π / 360)) (33.9425 * π / 180)
    0.291890962073863 0.291892606843032 0.956451110548184 0.95645159075516 0.558358869669048 0.558362296289377 0.829597412140758 0.82959933251919
    (by ring : (33.9425 * π / 180:ℝ) = 2 * (33.9425 * (π / 360)))
    h3 g3 (by norm_num) (by norm_num) (by norm_num) (by norm_num) (by norm_num) (by norm_num)
  have h4 := h4g4.1
  have g4 := h4g4.2
  exact g4

/-- Interval bounds for the sine of half the longitude difference in the concrete scenario. -/
theorem sinD_bounds :
    (0.379691594091673:ℝ) ≤ Real.sin (22.3146 * (π / 180)) ∧ Real.sin (22.3146 * (π / 180)) ≤ 0.379692207946154 := by
  have h0 := sin_leaf (22.3146 * (π / 2880)) 0.024341452579095 0.024341452579096 0.024339030550469 0.02433906711961
    (by nlinarith [Real.pi_gt_d20, Real.pi_lt_d20]) (by nlinarith [Real.pi_gt_d20, Real.pi_lt_d20])
    (by norm_num) (by norm_num) (by norm_num) (by norm_num)
  have g0 := cos_leaf (22.3146 * (π / 2880)) 0.024341452579095 0.024341452579096 0.9997037285586 0.99970376512774
    (by nlinarith [Real.pi_gt_d20, Real.pi_lt_d20]) (by nlinarith [Real.pi_gt_d20, Real.pi_lt_d20])
    (by norm_num) (by norm_num) (by norm_num) (by norm_num)
  have h1g1 := sin_cos_double (22.3146 * (π / 2880)) (22.3146 * (π / 1440))
    0.024339030550469 0.02433906711961 0.9997037285586 0.99970376512774 0.048663639181611 0.048663714078342 0.998815219623494 0.998815223183727
    (by ring : (22.3146:ℝ) * (π / 1440) = 2 * (22.3146 * (π / 2880)))
    h0 g0 (by norm_num) (by norm_num) (by norm_num) (by norm_num) (by norm_num) (by norm_num)
  have h1 := h1g1.1
  have g1 := h1g1.2
  have h2g2 := sin_cos_double (22.3146 * (π / 1440)) (22.3146 * (π / 720))
    0.048663639181611 0.048663714078342 0.998815219623494 0.998815223183727 0.097211966913718 0.097212116876217 0.995263685864202 0.995263700443204
    (by ring : (22.3146:ℝ) * (π / 720) = 2 * (22.3146 * (π / 1440)))
    h1 g1 (by norm_num) (by norm_num) (by norm_num) (by norm_num) (by norm_num) (by norm_num)
  have h2 := h2g2.1
  have g2 := h2g2.2
  have h3g3 := sin_cos_double (22.3146 * (π / 720)) (22.3146 * (π / 360))
    0.097211966913718 0.097212116876217 0.995263685864202 0.995263700443204 0.193503081001311 0.193503382340282 0.981099608664889 0.981099666977533
    (by ring : (22.3146:ℝ) * (π / 360) = 2 * (22.3146 * (π / 720)))
    h2 g2 (by norm_num) (by norm_num) (by norm_num) (by norm_num) (by norm_num) (by norm_num)
  have h3 := h3g3.1
  have g3 := h3g3.2
  have h4g4 := sin_cos_double (22.3146 * (π / 360)) (22.3146 * (π / 180))
    0.193503081001311 0.193503382340282 0.981099608664889 0.981099666977533 0.379691594091673 0.379692207946154 0.925112882045741 0.925113115286001
    (by ring : (22.3146 * (π / 180):ℝ) = 2 * (22.3146 * (π / 360)))
    h3 g3 (by norm_num) (by norm_num) (by norm_num) (by norm_num) (by norm_num) (by norm_num)
  have h4 := h4g4.1
  have g4 := h4g4.2
  exact h4

/-- Interval bounds for the sine of the lower comparison angle. -/
theorem sinTh1_bounds :
    (0.30685643423678:ℝ) ≤ Real.sin (0.311888487:ℝ) ∧ Real.sin (0.311888487:ℝ) ≤ 0.306856683394995 := by
  have h0 := sin_leaf (0.0194930304375:ℝ) 0.0194930304375 0.0194930304375 0.019491788429642 0.019491803469587
    (le_refl _) (le_refl _) (by norm_num) (by norm_num) (by norm_num) (by norm_num)
  have g0 := cos_leaf (0.0194930304375:ℝ) 0.0194930304375 0.0194930304375 0.999810003362209 0.999810018402154
    (le_refl _) (le_refl _) (by norm_num) (by norm_num) (by norm_num) (by norm_num)
  have h1g1 := sin_cos_double (0.0194930304375:ℝ) (0.038986060875:ℝ)
    0.019491788429642 0.019491803469587 0.999810003362209 0.999810018402154 0.038976170110751 0.038976200771238 0.999240139195005 0.999240140367629
    (by norm_num) h0 g0 (by norm_num) (by norm_num) (by norm_num) (by norm_num) (by norm_num) (by norm_num)
  have h1 := h1g1.1
  have g1 := h1g1.2
  have h2g2 := sin_cos_double (0.038986060875:ℝ) (0.07797212175:ℝ)
    0.038976170110751 0.038976200771238 0.999240139195005 0.999240140367629 0.07789310729351 0.077893168659298 0.99696171154688 0.996961716326996
    (by norm_num) h1 g1 (by norm_num) (by norm_num) (by norm_num) (by norm_num) (by norm_num) (by norm_num)
  have h2 := h2g2.1
  have g2 := h2g2.2
  have h3g3 := sin_cos_double (0.07797212175:ℝ) (0.1559442435:ℝ)
    0.07789310729351 0.077893168659298 0.99696171154688 0.996961716326996 0.155312891130084 0.155313014233444 0.987865308552428 0.987865327672324
    (by norm_num) h2 g2 (by norm_num) (by norm_num) (by norm_num) (by norm_num) (by norm_num) (by norm_num)
  have h3 := h3g3.1
  have g3 := h3g3.2
  have h4g4 := sin_cos_double (0.1559442435:ℝ) (0.311888487:ℝ)
    0.155312891130084 0.155313014233444 0.987865308552428 0.987865327672324 0.30685643423678 0.306856683394995 0.951755735219444 0.95175581169763
    (by norm_num) h3 g3 (by norm_num) (by norm_num) (by norm_num) (by norm_num) (by norm_num) (by norm_num)
  have h4 := h4g4.1
  have g4 := h4g4.2
  exact h4

/-- Interval bounds for the sine of the upper comparison angle. -/
theorem sinTh2_bounds :
    (0.306869533199688:ℝ) ≤ Real.sin (0.31190225:ℝ) ∧ Real.sin (0.31190225:ℝ) ≤ 0.306869782402435 := by
  have h0 := sin_leaf (0.019493890625:ℝ) 0.019493890625 0.019493890625 0.019492648452381 0.019492663494981
    (le_refl _) (le_refl _) (by norm_num) (by norm_num) (by norm_num) (by norm_num)
  have g0 := cos_leaf (0.019493890625:ℝ) 0.019493890625 0.019493890625 0.99980998659285 0.99981000163545
    (le_refl _) (le_refl _) (by norm_num) (by norm_num) (by norm_num) (by norm_num)
  have h1g1 := sin_cos_double (0.019493890625:ℝ) (0.03898778125:ℝ)
    0.019492648452381 0.019492663494981 0.99980998659285 0.99981000163545 0.038977889175668 0.038977919841593 0.999240072139742 0.999240073312624
    (by norm_num) h0 g0 (by norm_num) (by norm_num) (by norm_num) (by norm_num) (by norm_num) (by norm_num)
  have h1 := h1g1.1
  have g1 := h1g1.2
  have h2g2 := sin_cos_double (0.03898778125:ℝ) (0.0779755625:ℝ)
    0.038977889175668 0.038977919841593 0.999240072139742 0.999240073312624 0.077896537583498 0.077896598960174 0.996961443529644 0.996961448310819
    (by norm_num) h1 g1 (by norm_num) (by norm_num) (by norm_num) (by norm_num) (by norm_num) (by norm_num)
  have h2 := h2g2.1
  have g2 := h2g2.2
  have h3g3 := sin_cos_double (0.0779755625:ℝ) (0.155951125:ℝ)
    0.077896537583498 0.077896598960174 0.996961443529644 0.996961448310819 0.15531968911041 0.155319812235645 0.987864239740875 0.987864258865006
    (by norm_num) h2 g2 (by norm_num) (by norm_num) (by norm_num) (by norm_num) (by norm_num) (by norm_num)
  have h3 := h3g3.1
  have g3 := h3g3.2
  have h4g4 := sin_cos_double (0.155951125:ℝ) (0.31190225:ℝ)
    0.15531968911041 0.155319812235645 0.987864239740875 0.987864258865006 0.306869533199688 0.306869782402435 0.951751511854167 0.951751588349292
    (by norm_num) h3 g3 (by norm_num) (by norm_num) (by norm_num) (by norm_num) (by norm_num) (by norm_num)
  have h4 := h4g4.1
  have g4 := h4g4.2
  exact h4

/-- Interval bounds for the haversine `a` value of the concrete KJFK-KLAX scenario. -/
theorem aexpr_bounds :
    (0.094165960812672:ℝ) ≤ Real.sin ((33.9425 - 40.6398) * π / 180 / 2) * Real.sin ((33.9425 - 40.6398) * π / 180 / 2) + Real.cos (40.6398 * π / 180) * Real.cos (33.9425 * π / 180) * (Real.sin ((-118.4081 - -73.7789) * π / 180 / 2) * Real.sin ((-118.4081 - -73.7789) * π / 180 / 2)) ∧
      Real.sin ((33.9425 - 40.6398) * π / 180 / 2) * Real.sin ((33.9425 - 40.6398) * π / 180 / 2) + Real.cos (40.6398 * π / 180) * Real.cos (33.9425 * π / 180) * (Real.sin ((-118.4081 - -73.7789) * π / 180 / 2) * Real.sin ((-118.4081 - -73.7789) * π / 180 / 2)) ≤ 0.094167174842033 := by
  have eA : ((33.9425:ℝ) - 40.6398) * π / 180 / 2 = -(3.34865 * (π / 180)) := by ring_nf
  have eD : ((-118.4081:ℝ) - -73.7789) * π / 180 / 2 = -(22.3146 * (π / 180)) := by ring_nf
  rw [eA, eD, Real.sin_neg, Real.sin_neg, neg_mul_neg, neg_mul_neg]
  have hsA2 := mul_bounds (Real.sin (3.34865 * (π / 180))) (Real.sin (3.34865 * (π / 180)))
    0.058411087440236 0.058412302834741 0.058411087440236 0.058412302834741 0.00341185513595 0.003411997122458
    sinA_bounds sinA_bounds (by norm_num) (by norm_num) (by norm_num) (by norm_num)
  have hsD2 := mul_bounds (Real.sin (22.3146 * (π / 180))) (Real.sin (22.3146 * (π / 180)))
    0.379691594091673 0.379692207946154 0.379691594091673 0.379692207946154 0.144165706623875 0.144166172775026
    sinD_bounds sinD_bounds (by norm_num) (by norm_num) (by norm_num) (by norm_num)
  have hBC := mul_bounds (Real.cos (40.6398 * π / 180)) (Real.cos (33.9425 * π / 180))
    0.758816783105517 0.758821536558482 0.829597412140758 0.82959933251919 0.629512439553311 0.629517840230103
    cosB_bounds cosC_bounds (by norm_num) (by norm_num) (by norm_num) (by norm_num)
  have hPR := mul_bounds (Real.cos (40.6398 * π / 180) * Real.cos (33.9425 * π / 180))
    (Real.sin (22.3146 * (π / 180)) * Real.sin (22.3146 * (π / 180)))
    0.629512439553311 0.629517840230103 0.144165706623875 0.144166172775026 0.090754105676722 0.090755177719575
    hBC hsD2 (by norm_num) (by norm_num) (by norm_num) (by norm_num)
  constructor
  · linarith [hsA2.1, hPR.1]
  · linarith [hsA2.2, hPR.2]

set_option maxHeartbeats 1600000 in
/-- Strict bounds on the haversine distance from KJFK to KLAX as the code computes it. -/
theorem dist_KJFK_KLAX_bounds :
    (2145.83333606331:ℝ) < calculateDistance 40.6398 (-73.7789) 33.9425 (-118.4081) ∧
      calculateDistance 40.6398 (-73.7789) 33.9425 (-118.4081) < 2145.9280272925 := by
  have ha := aexpr_bounds
  have ha0 : (0:ℝ) < Real.sin ((33.9425 - 40.6398) * π / 180 / 2) * Real.sin ((33.9425 - 40.6398) * π / 180 / 2) + Real.cos (40.6398 * π / 180) * Real.cos (33.9425 * π / 180) * (Real.sin ((-118.4081 - -73.7789) * π / 180 / 2) * Real.sin ((-118.4081 - -73.7789) * π / 180 / 2)) := lt_of_lt_of_le (by norm_num) ha.1
  have ha1 : Real.sin ((33.9425 - 40.6398) * π / 180 / 2) * Real.sin ((33.9425 - 40.6398) * π / 180 / 2) + Real.cos (40.6398 * π / 180) * Real.cos (33.9425 * π / 180) * (Real.sin ((-118.4081 - -73.7789) * π / 180 / 2) * Real.sin ((-118.4081 - -73.7789) * π / 180 / 2)) < 1 := lt_of_le_of_lt ha.2 (by norm_num)
  have h1s := sinTh1_bounds
  have h2s := sinTh2_bounds
  have hq1 : Real.sin (0.311888487:ℝ) ^ 2 ≤ (0.306856683394995:ℝ)^2 :=
    pow_le_pow_left₀ (le_trans (by norm_num) h1s.1) h1s.2 2
  have hq2 : (0.306869533199688:ℝ)^2 ≤ Real.sin (0.31190225:ℝ) ^ 2 :=
    pow_le_pow_left₀ (by norm_num) h2s.1 2
  have hlow : (0.311888487:ℝ) < Real.arctan (Real.sqrt (Real.sin ((33.9425 - 40.6398) * π / 180 / 2) * Real.sin ((33.9425 - 40.6398) * π / 180 / 2) + Real.cos (40.6398 * π / 180) * Real.cos (33.9425 * π / 180) * (Real.sin ((-118.4081 - -73.7789) * π / 180 / 2) * Real.sin ((-118.4081 - -73.7789) * π / 180 / 2))) / Real.sqrt (1 - (Real.sin ((33.9425 - 40.6398) * π / 180 / 2) * Real.sin ((33.9425 - 40.6398) * π / 180 / 2) + Real.cos (40.6398 * π / 180) * Real.cos (33.9425 * π / 180) * (Real.sin ((-118.4081 - -73.7789) * π / 180 / 2) * Real.sin ((-118.4081 - -73.7789) * π / 180 / 2))))) :=
    arctan_sqrt_lt ha0 ha1 (by norm_num) (by nlinarith [Real.pi_gt_d20]) (by nlinarith [hq1, ha.1])
  have hhigh : Real.arctan (Real.sqrt (Real.sin ((33.9425 - 40.6398) * π / 180 / 2) * Real.sin ((33.9425 - 40.6398) * π / 180 / 2) + Real.cos (40.6398 * π / 180) * Real.cos (33.9425 * π / 180) * (Real.sin ((-118.4081 - -73.7789) * π / 180 / 2) * Real.sin ((-118.4081 - -73.7789) * π / 180 / 2))) / Real.sqrt (1 - (Real.sin ((33.9425 - 40.6398) * π / 180 / 2) * Real.sin ((33.9425 - 40.6398) * π / 180 / 2) + Real.cos (40.6398 * π / 180) * Real.cos (33.9425 * π / 180) * (Real.sin ((-118.4081 - -73.7789) * π / 180 / 2) * Real.sin ((-118.4081 - -73.7789) * π / 180 / 2))))) < (0.31190225:ℝ) :=
    lt_arctan_sqrt ha0 ha1 (by norm_num) (by nlinarith [Real.pi_gt_d20]) (by nlinarith [hq2, ha.2])
  have hpos : (0:ℝ) < Real.sqrt (1 - (Real.sin ((33.9425 - 40.6398) * π / 180 / 2) * Real.sin ((33.9425 - 40.6398) * π / 180 / 2) + Real.cos (40.6398 * π / 180) * Real.cos (33.9425 * π / 180) * (Real.sin ((-118.4081 - -73.7789) * π / 180 / 2) * Real.sin ((-118.4081 - -73.7789) * π / 180 / 2)))) := Real.sqrt_pos.2 (by linarith)
  simp only [calculateDistance, jsAtan2, if_pos hpos]
  constructor
  · nlinarith [hlow]
  · nlinarith [hhigh]

/-! ### Estimator lemmas -/

/-- The engine-count guard of `calculateTripCost` fires first. -/
theorem calculateTripCost_engines (airports : List Airport) (dep arr : String)
    {n : ℤ} (h : n < 1) :
    calculateTripCost airports dep arr n = .error "Invalid number of engines" := by
  rw [calculateTripCost, if_pos h]

/-- With a valid engine count, a missing airport makes `calculateTripCost`
throw the airport-coordinates error. -/
theorem calculateTripCost_missing (airports : List Airport) (dep arr : String)
    {n : ℤ} (h : 1 ≤ n)
    (hm : findAirport airports dep = none ∨ findAirport airports arr = none) :
    calculateTripCost airports dep arr n = .error "Could not find airport coordinates" := by
  rw [calculateTripCost, if_neg (not_lt.2 h)]
  rcases hm with hm | hm
  · rw [hm]
  · rw [hm]
    cases findAirport airports dep <;> rfl

/-- With a valid engine count and both airports resolved,
`calculateTripCost` returns the rounded fuel and total costs. -/
theorem calculateTripCost_found (airports : List Airport) (dep arr : String)
    (A B : Airport) {n : ℤ} (h : 1 ≤ n)
    (hd : findAirport airports dep = some A) (ha : findAirport airports arr = some B) :
    calculateTripCost airports dep arr n =
      .ok { estimated_fuel_cost :=
              round ((220 * (n : ℝ) / 500 * calculateDistance A.lat A.lon B.lat B.lon) * 6),
            estimated_total_cost :=
              round (((220 * (n : ℝ) / 500 * calculateDistance A.lat A.lon B.lat B.lon) * 6) *
                1.25) } := by
  rw [calculateTripCost, if_neg (not_lt.2 h), hd, ha]

/-- The haversine distance is symmetric in its two endpoints. -/
theorem calculateDistance_symm (lat1 lon1 lat2 lon2 : ℝ) :
    calculateDistance lat1 lon1 lat2 lon2 = calculateDistance lat2 lon2 lat1 lon1 := by
  unfold calculateDistance
  have e1 : (lat1 - lat2) * π / 180 / 2 = -((lat2 - lat1) * π / 180 / 2) := by ring
  have e2 : (lon1 - lon2) * π / 180 / 2 = -((lon2 - lon1) * π / 180 / 2) := by ring
  rw [e1, e2, Real.sin_neg, Real.sin_neg, neg_mul_neg, neg_mul_neg,
    mul_comm (Real.cos (lat2 * π / 180)) (Real.cos (lat1 * π / 180))]

/-- The haversine distance from a point to itself is zero. -/
theorem calculateDistance_self (lat lon : ℝ) : calculateDistance lat lon lat lon = 0 := by
  unfold calculateDistance
  have e1 : (lat - lat) * π / 180 / 2 = 0 := by ring
  have e2 : (lon - lon) * π / 180 / 2 = 0 := by ring
  rw [e1, e2, Real.sin_zero]
  norm_num [jsAtan2, Real.sqrt_one, Real.arctan_zero]

/-- The concrete trip-cost evaluation: with the claimed KJFK and KLAX
coordinates and two engines, the code returns a fuel cost of 11330 and a
total cost of 14163. -/
theorem tripCost_KJFK_KLAX :
    calculateTripCost testAirports "KJFK" "KLAX" 2 =
      .ok { estimated_fuel_cost := 11330, estimated_total_cost := 14163 } := by
  have hd := dist_KJFK_KLAX_bounds
  have hfind1 : findAirport testAirports "KJFK" = some KJFK := rfl
  have hfind2 : findAirport testAirports "KLAX" = some KLAX := rfl
  have hlat1 : KJFK.lat = 40.6398 := rfl
  have hlon1 : KJFK.lon = -73.7789 := rfl
  have hlat2 : KLAX.lat = 33.9425 := rfl
  have hlon2 : KLAX.lon = -118.4081 := rfl
  rw [calculateTripCost_found testAirports "KJFK" "KLAX" KJFK KLAX (by norm_num) hfind1 hfind2]
  rw [hlat1, hlon1, hlat2, hlon2]
  have hfuel : round ((220 * ((2:ℤ) : ℝ) / 500 *
      calculateDistance 40.6398 (-73.7789) 33.9425 (-118.4081)) * 6) = 11330 := by
    rw [round_eq, Int.floor_eq_iff]
    constructor
    · push_cast
      nlinarith [hd.1]
    · push_cast
      nlinarith [hd.2]
  have htotal : round (((220 * ((2:ℤ) : ℝ) / 500 *
      calculateDistance 40.6398 (-73.7789) 33.9425 (-118.4081)) * 6) * 1.25) = 14163 := by
    rw [round_eq, Int.floor_eq_iff]
    constructor
    · push_cast
      nlinarith [hd.1]
    · push_cast
      nlinarith [hd.2]
  rw [hfuel, htotal]

/-! ### Claim C1 -/

/-- C1 (amended): for every pair of catalog airports and every
`numEngines >= 1`, `calculateTripCost` returns
`estimated_fuel_cost = round(((220 * numEngines / 500) * d) * 6)` and
`estimated_total_cost = round((((220 * numEngines / 500) * d) * 6) * 1.25)`
with `d` the haversine distance at Earth radius 3440.065 nm; for KJFK
(40.6398, -73.7789) and KLAX (33.9425, -118.4081) with two engines the
returned total cost is 14163 (not 14157: the code's haversine distance is
about 2145.9 nm, not the rounded 2145 nm the handbook arithmetic used). -/
theorem C1_cost_estimate :
    (∀ (airports : List Airport) (dep arr : String) (n : ℤ) (A B : Airport),
      findAirport airports dep = some A → findAirport airports arr = some B → 1 ≤ n →
      calculateTripCost airports dep arr n =
        .ok { estimated_fuel_cost :=
                round ((220 * (n : ℝ) / 500 * calculateDistance A.lat A.lon B.lat B.lon) * 6),
              estimated_total_cost :=
                round (((220 * (n : ℝ) / 500 * calculateDistance A.lat A.lon B.lat B.lon) * 6) *
                  1.25) }) ∧
    calculateTripCost testAirports "KJFK" "KLAX" 2 =
      .ok { estimated_fuel_cost := 11330, estimated_total_cost := 14163 } :=
  ⟨fun airports dep arr _ A B hd ha hn => calculateTripCost_found airports dep arr A B hn hd ha,
   tripCost_KJFK_KLAX⟩

/-- Witness for C1: the formula conjunct applied to the concrete KJFK-KLAX
catalog and two engines. -/
theorem C1_cost_estimate_witness :
    calculateTripCost testAirports "KJFK" "KLAX" 2 =
      .ok { estimated_fuel_cost :=
              round ((220 * ((2 : ℤ) : ℝ) / 500 *
                calculateDistance KJFK.lat KJFK.lon KLAX.lat KLAX.lon) * 6),
            estimated_total_cost :=
              round (((220 * ((2 : ℤ) : ℝ) / 500 *
                calculateDistance KJFK.lat KJFK.lon KLAX.lat KLAX.lon) * 6) * 1.25) } :=
  C1_cost_estimate.1 testAirports "KJFK" "KLAX" 2 KJFK KLAX rfl rfl (by norm_num)

/-- Counterexample for C1 as stated: the concrete KJFK-KLAX scenario with
two engines does not return a total cost of 14157 (it returns 14163). -/
theorem C1_cost_estimate_counterexample :
    ¬ (calculateTripCost testAirports "KJFK" "KLAX" 2).map
        (fun c => c.estimated_total_cost) = Except.ok 14157 := by
  rw [tripCost_KJFK_KLAX]
  intro h
  simp only [Except.map, Except.ok.injEq] at h
  exact absurd h (by decide)

/-! ### Claim C4 -/

/-- C4 (amended): `calculateTripCost` checks the engine count first: for
`numEngines < 1` it throws the invalid-aircraft error even when an
airport is unknown, and only with `numEngines >= 1` does a missing
airport produce the airport-coordinates error. -/
theorem C4_check_order :
    (∀ (airports : List Airport) (dep arr : String) (n : ℤ), n < 1 →
      calculateTripCost airports dep arr n = .error "Invalid number of engines") ∧
    (∀ (airports : List Airport) (dep arr : String) (n : ℤ), 1 ≤ n →
      (findAirport airports dep = none ∨ findAirport airports arr = none) →
      calculateTripCost airports dep arr n = .error "Could not find airport coordinates") :=
  ⟨fun airports dep arr _ h => calculateTripCost_engines airports dep arr h,
   fun airports dep arr _ h hm => calculateTripCost_missing airports dep arr h hm⟩

/-- Witness for C4: on the empty catalog, zero engines yield the
invalid-aircraft error and three engines the airport error. -/
theorem C4_check_order_witness :
    calculateTripCost [] "AAAA" "BBBB" 0 = .error "Invalid number of engines" ∧
    calculateTripCost [] "AAAA" "BBBB" 3 = .error "Could not find airport coordinates" :=
  ⟨C4_check_order.1 [] "AAAA" "BBBB" 0 (by norm_num),
   C4_check_order.2 [] "AAAA" "BBBB" 3 (by norm_num) (Or.inl rfl)⟩

/-- Counterexample for C4 as stated: with an unknown airport and zero
engines the reported error is the invalid-aircraft one, not the
airport-not-found one. -/
theorem C4_check_order_counterexample :
    calculateTripCost [] "KJFK" "KLAX" 0 = .error "Invalid number of engines" ∧
    calculateTripCost [] "KJFK" "KLAX" 0 ≠ .error "Could not find airport coordinates" := by
  have he := calculateTripCost_engines [] "KJFK" "KLAX" (by norm_num : (0:ℤ) < 1)
  refine ⟨he, ?_⟩
  rw [he]
  intro h
  simp only [Except.error.injEq] at h
  exact absurd h (by decide)

/-! ### Claim C9 -/

/-- C9: the great-circle distance is symmetric and vanishes on coincident
endpoints, so the estimator with equal departure and arrival airports
returns zero fuel and total costs. -/
theorem C9_distance_symm_zero :
    (∀ lat1 lon1 lat2 lon2 : ℝ,
      calculateDistance lat1 lon1 lat2 lon2 = calculateDistance lat2 lon2 lat1 lon1) ∧
    (∀ lat lon : ℝ, calculateDistance lat lon lat lon = 0) ∧
    (∀ (airports : List Airport) (code : String) (A : Airport) (n : ℤ),
      findAirport airports code = some A → 1 ≤ n →
      calculateTripCost airports code code n =
        .ok { estimated_fuel_cost := 0, estimated_total_cost := 0 }) := by
  refine ⟨calculateDistance_symm, calculateDistance_self, ?_⟩
  intro airports code A n hfind hn
  rw [calculateTripCost_found airports code code A A hn hfind hfind,
    calculateDistance_self]
  norm_num

/-- Witness for C9: the same-airport estimate on the concrete catalog. -/
theorem C9_distance_symm_zero_witness :
    calculateTripCost testAirports "KJFK" "KJFK" 2 =
      .ok { estimated_fuel_cost := 0, estimated_total_cost := 0 } :=
  C9_distance_symm_zero.2.2 testAirports "KJFK" KJFK 2 rfl (by norm_num)

/-! ### Route-handler lemmas -/

/-- Characterization of a trip update once the trip and plane are
resolved: the result is determined by the conditional cost recomputation
and the written record. -/
theorem tripsPut_eq (airports : List Airport) (db : DB) (userId tripId : ℕ)
    (body : TripUpdateBody) (now : String) (t : Trip) (plane : Plane)
    (hT : getTripById db tripId userId = some t)
    (hP : getPlaneById db (mergeUpdates t body).plane_id userId = some plane) :
    tripsPut airports db userId tripId body now =
      match (if (mergeUpdates t body).departure_airport ≠ t.departure_airport ∨
                (mergeUpdates t body).arrival_airport ≠ t.arrival_airport ∨
                (mergeUpdates t body).plane_id ≠ t.plane_id then
              calculateTripCost airports (mergeUpdates t body).departure_airport
                (mergeUpdates t body).arrival_airport plane.num_engines
            else .ok { estimated_fuel_cost := t.estimated_fuel_cost,
                       estimated_total_cost := t.estimated_total_cost }) with
      | .error m => (.error (400, "Could not recalculate trip cost: " ++ m), db)
      | .ok costs =>
        (.ok (writtenTrip t body now costs),
         { db with trips := db.trips.map (fun tr => if tr.id == tripId && tr.user_id == userId
             then writtenTrip t body now costs else tr) }) := by
  rw [tripsPut, hT]
  simp only [hP]

/-! ### Claim C2 -/

/-- C2: a trip-create request whose departure or arrival airport is not in
the catalog fails with the cost-estimation error (HTTP 400) and leaves
the store unchanged, so no row is inserted and no default costs are
written. -/
theorem C2_create_unknown_airport :
    ∀ (est : String → String) (airports : List Airport) (db : DB) (userId : ℕ)
      (body : TripCreateBody) (plane : Plane),
      body.departure_airport ≠ "" → body.arrival_airport ≠ "" → body.plane_id ≠ 0 →
      body.departure_time ≠ "" →
      getPlaneById db body.plane_id userId = some plane →
      1 ≤ plane.num_engines →
      (findAirport airports body.departure_airport = none ∨
        findAirport airports body.arrival_airport = none) →
      tripsPost est airports db userId body =
        (.error (400, "Could not calculate trip cost: Could not find airport coordinates"), db) := by
  intro est airports db userId body plane h1 h2 h3 h4 hp hn hm
  rw [tripsPost, if_neg (by simp [h1, h2, h3, h4])]
  simp only [hp, calculateTripCost_missing airports _ _ hn hm]
  rfl

/-- Witness for C2: creating a trip with unknown airport code ZZZZ against
an empty catalog fails with the cost error and leaves the store as it
was. -/
theorem C2_create_unknown_airport_witness :
    tripsPost id [] planeOnlyDB 7
      { departure_airport := "ZZZZ", arrival_airport := "KLAX", plane_id := 1,
        pilot_id := none, departure_time := "2024-01-01T00:00:00Z" } =
      (.error (400, "Could not calculate trip cost: Could not find airport coordinates"),
        planeOnlyDB) :=
  C2_create_unknown_airport id [] planeOnlyDB 7 _ witnessPlane
    (by decide) (by decide) (by decide) (by decide) rfl (by decide) (Or.inl rfl)

/-! ### Claim C3 -/

/-- C3: when departure airport, arrival airport and plane are all
unchanged by the merge, the update keeps both cost fields exactly equal
to their stored values; when any of them changes, the persisted cost
fields are exactly the output of the cost estimator run with the merged
airports and the resolved plane's engine count. -/
theorem C3_update_cost_recompute :
    ∀ (airports : List Airport) (db : DB) (userId tripId : ℕ) (body : TripUpdateBody)
      (now : String) (t : Trip) (plane : Plane),
      getTripById db tripId userId = some t →
      getPlaneById db (mergeUpdates t body).plane_id userId = some plane →
      ((mergeUpdates t body).departure_airport = t.departure_airport →
        (mergeUpdates t body).arrival_airport = t.arrival_airport →
        (mergeUpdates t body).plane_id = t.plane_id →
        ∃ tr, (tripsPut airports db userId tripId body now).1 = .ok tr ∧
          tr.estimated_fuel_cost = t.estimated_fuel_cost ∧
          tr.estimated_total_cost = t.estimated_total_cost ∧
          (tripsPut airports db userId tripId body now).2.trips =
            db.trips.map (fun x => if x.id == tripId && x.user_id == userId then tr else x)) ∧
      (((mergeUpdates t body).departure_airport ≠ t.departure_airport ∨
        (mergeUpdates t body).arrival_airport ≠ t.arrival_airport ∨
        (mergeUpdates t body).plane_id ≠ t.plane_id) →
        ∀ tr, (tripsPut airports db userId tripId body now).1 = .ok tr →
          calculateTripCost airports (mergeUpdates t body).departure_airport
            (mergeUpdates t body).arrival_airport plane.num_engines =
            .ok { estimated_fuel_cost := tr.estimated_fuel_cost,
                  estimated_total_cost := tr.estimated_total_cost }) := by
  intro airports db userId tripId body now t plane hT hP
  rw [tripsPut_eq airports db userId tripId body now t plane hT hP]
  constructor
  · intro ha hb hc
    rw [if_neg (by simp [ha, hb, hc])]
    exact ⟨_, rfl, rfl, rfl, rfl⟩
  · intro hch tr htr
    rw [if_pos hch] at htr
    cases hc2 : calculateTripCost airports (mergeUpdates t body).departure_airport
        (mergeUpdates t body).arrival_airport plane.num_engines with
    | error m =>
      rw [hc2] at htr
      simp at htr
    | ok costs =>
      rw [hc2] at htr
      simp only [Except.ok.injEq] at htr
      rw [← htr]
      cases costs
      rfl

/-- Witness for C3: the empty update against the concrete store keeps the
stored cost fields. -/
theorem C3_update_cost_recompute_witness :
    ∃ tr, (tripsPut [] tripDB 7 10 emptyUpdateBody "2024-02-02T00:00:00Z").1 = .ok tr ∧
      tr.estimated_fuel_cost = scheduledTrip.estimated_fuel_cost ∧
      tr.estimated_total_cost = scheduledTrip.estimated_total_cost ∧
      (tripsPut [] tripDB 7 10 emptyUpdateBody "2024-02-02T00:00:00Z").2.trips =
        tripDB.trips.map (fun x => if x.id == 10 && x.user_id == 7 then tr else x) :=
  (C3_update_cost_recompute [] tripDB 7 10 emptyUpdateBody "2024-02-02T00:00:00Z"
    scheduledTrip witnessPlane rfl rfl).1 rfl rfl rfl

/-- A successful trip update always returns the written record for some
cost value. -/
theorem tripsPut_ok_written :
    ∀ (airports : List Airport) (db : DB) (userId tripId : ℕ) (body : TripUpdateBody)
      (now : String) (t : Trip) (plane : Plane) (tr : Trip),
      getTripById db tripId userId = some t →
      getPlaneById db (mergeUpdates t body).plane_id userId = some plane →
      (tripsPut airports db userId tripId body now).1 = .ok tr →
      ∃ costs, tr = writtenTrip t body now costs := by
  intro airports db userId tripId body now t plane tr hT hP htr
  rw [tripsPut_eq airports db userId tripId body now t plane hT hP] at htr
  cases hE : (if (mergeUpdates t body).departure_airport ≠ t.departure_airport ∨
      (mergeUpdates t body).arrival_airport ≠ t.arrival_airport ∨
      (mergeUpdates t body).plane_id ≠ t.plane_id then
        calculateTripCost airports (mergeUpdates t body).departure_airport
          (mergeUpdates t body).arrival_airport plane.num_engines
      else .ok { estimated_fuel_cost := t.estimated_fuel_cost,
                 estimated_total_cost := t.estimated_total_cost }) with
  | error m =>
    rw [hE] at htr
    simp at htr
  | ok costs =>
    rw [hE] at htr
    simp only [Except.ok.injEq] at htr
    exact ⟨costs, htr.symm⟩

/-! ### Claim C7 -/

/-- C7: a successful update that sets the status to `departed` while the
stored `actual_departure_time` is unset and the request supplies none
stamps it with the current time (likewise `actual_arrival_time` for
`arrived`), while an already-set `actual_departure_time` is never
overwritten by a later `departed` update supplying none. -/
theorem C7_actual_time_stamping :
    ∀ (airports : List Airport) (db : DB) (userId tripId : ℕ) (body : TripUpdateBody)
      (now : String) (t : Trip) (plane : Plane) (tr : Trip),
      getTripById db tripId userId = some t →
      getPlaneById db (mergeUpdates t body).plane_id userId = some plane →
      (tripsPut airports db userId tripId body now).1 = .ok tr →
      ((mergeUpdates t body).status = "departed" →
        t.actual_departure_time = none → body.actual_departure_time = none →
        tr.actual_departure_time = some now) ∧
      ((mergeUpdates t body).status = "arrived" →
        t.actual_arrival_time = none → body.actual_arrival_time = none →
        tr.actual_arrival_time = some now) ∧
      (∀ v : String, (mergeUpdates t body).status = "departed" →
        body.actual_departure_time = none → t.actual_departure_time = some v → v ≠ "" →
        tr.actual_departure_time = some v) := by
  intro airports db userId tripId body now t plane tr hT hP htr
  obtain ⟨costs, rfl⟩ :=
    tripsPut_ok_written airports db userId tripId body now t plane tr hT hP htr
  have hmerge : (mergeUpdates t body).actual_departure_time =
      jsOrOptStr body.actual_departure_time t.actual_departure_time := rfl
  have hmergeArr : (mergeUpdates t body).actual_arrival_time =
      jsOrOptStr body.actual_arrival_time t.actual_arrival_time := rfl
  refine ⟨?_, ?_, ?_⟩
  · intro hst hadt hbadt
    show (if (mergeUpdates t body).status = "departed" ∧
        jsTruthy (mergeUpdates t body).actual_departure_time = false
      then some now else (mergeUpdates t body).actual_departure_time) = some now
    rw [if_pos ⟨hst, by rw [hmerge, hbadt, hadt]; rfl⟩]
  · intro hst haat hbaat
    show (if (mergeUpdates t body).status = "arrived" ∧
        jsTruthy (mergeUpdates t body).actual_arrival_time = false
      then some now else (mergeUpdates t body).actual_arrival_time) = some now
    rw [if_pos ⟨hst, by rw [hmergeArr, hbaat, haat]; rfl⟩]
  · intro v hst hbadt hadt hv
    show (if (mergeUpdates t body).status = "departed" ∧
        jsTruthy (mergeUpdates t body).actual_departure_time = false
      then some now else (mergeUpdates t body).actual_departure_time) = some v
    have hm2 : (mergeUpdates t body).actual_departure_time = some v := by
      rw [hmerge, hbadt, hadt]
      rfl
    rw [if_neg, hm2]
    intro hcon
    rw [hm2] at hcon
    have hfalse : (v != "") = false := hcon.2
    simp at hfalse
    exact hv hfalse

/-- Witness for C7: updating the scheduled trip to `departed` with no
actual time supplied stamps the current time. -/
theorem C7_actual_time_stamping_witness :
    (writtenTrip scheduledTrip departedBody "2024-03-03T00:00:00Z"
      { estimated_fuel_cost := 11330, estimated_total_cost := 14163 }).actual_departure_time =
      some "2024-03-03T00:00:00Z" :=
  (C7_actual_time_stamping [] tripDB 7 10 departedBody "2024-03-03T00:00:00Z" scheduledTrip
    witnessPlane _ rfl rfl rfl).1 rfl rfl rfl

/-! ### Claim C10 -/

/-- C10: the update endpoint persists any non-empty supplied status string
unchanged (no state-machine check), and a trip reverse-transitioned to
`scheduled` becomes deletable again under the delete rule. -/
theorem C10_status_not_enforced :
    ∀ (airports : List Airport) (db : DB) (userId tripId : ℕ) (body : TripUpdateBody)
      (now : String) (t : Trip) (plane : Plane) (s : String),
      getTripById db tripId userId = some t →
      getPlaneById db (mergeUpdates t body).plane_id userId = some plane →
      (mergeUpdates t body).departure_airport = t.departure_airport →
      (mergeUpdates t body).arrival_airport = t.arrival_airport →
      (mergeUpdates t body).plane_id = t.plane_id →
      body.status = some s → s ≠ "" →
      ∃ tr, (tripsPut airports db userId tripId body now).1 = .ok tr ∧ tr.status = s ∧
        (tripsPut airports db userId tripId body now).2.trips =
          db.trips.map (fun x => if x.id == tripId && x.user_id == userId then tr else x) ∧
        (s = "scheduled" → t.id = tripId → t.user_id = userId → t ∈ db.trips →
          (tripsDelete (tripsPut airports db userId tripId body now).2 userId tripId).1 =
            .ok "Trip deleted successfully" ∧
          (tripsDelete (tripsPut airports db userId tripId body now).2 userId tripId).2.trips =
            (tripsPut airports db userId tripId body now).2.trips.filter
              (fun x => !(x.id == tripId && x.user_id == userId))) := by
  intro airports db userId tripId body now t plane s hT hP ha hb hc hbs hs
  rw [tripsPut_eq airports db userId tripId body now t plane hT hP]
  rw [if_neg (by simp [ha, hb, hc])]
  have hstat : (writtenTrip t body now
      { estimated_fuel_cost := t.estimated_fuel_cost,
        estimated_total_cost := t.estimated_total_cost }).status = s := by
    show (mergeUpdates t body).status = s
    show jsOrStr body.status t.status = s
    rw [hbs, jsOrStr, if_neg hs]
  refine ⟨_, rfl, hstat, rfl, ?_⟩
  intro hsched hid huid hmem
  set newT := writtenTrip t body now
    { estimated_fuel_cost := t.estimated_fuel_cost,
      estimated_total_cost := t.estimated_total_cost } with hnewT
  have hfmem : newT ∈ db.trips.map
      (fun x => if x.id == tripId && x.user_id == userId then newT else x) := by
    have hmm := List.mem_map_of_mem
      (fun x => if x.id == tripId && x.user_id == userId then newT else x) hmem
    simpa [hid, huid] using hmm
  have hpred : (fun x : Trip => x.id == tripId && x.user_id == userId &&
      x.status == "scheduled") newT = true := by
    have h1 : newT.id = t.id := rfl
    have h2 : newT.user_id = t.user_id := rfl
    simp [h1, h2, hid, huid, hstat, hsched]
  have hsome : ((db.trips.map
      (fun x => if x.id == tripId && x.user_id == userId then newT else x)).find?
      (fun x => x.id == tripId && x.user_id == userId && x.status == "scheduled")).isSome :=
    List.find?_isSome.2 ⟨newT, hfmem, hpred⟩
  cases hfind : (db.trips.map
      (fun x => if x.id == tripId && x.user_id == userId then newT else x)).find?
      (fun x => x.id == tripId && x.user_id == userId && x.status == "scheduled") with
  | none =>
    rw [hfind] at hsome
    simp at hsome
  | some u =>
    constructor
    · show (tripsDelete _ userId tripId).1 = _
      rw [tripsDelete]
      simp only [hfind]
    · show (tripsDelete _ userId tripId).2.trips = _
      rw [tripsDelete]
      simp only [hfind]

/-- Witness for C10: the arrived trip is reverse-transitioned to
`scheduled` and thereby becomes deletable. -/
theorem C10_status_not_enforced_witness :
    ∃ tr, (tripsPut [] arrivedDB 7 10 rescheduleBody "2024-04-04T00:00:00Z").1 = .ok tr ∧
      tr.status = "scheduled" ∧
      (tripsPut [] arrivedDB 7 10 rescheduleBody "2024-04-04T00:00:00Z").2.trips =
        arrivedDB.trips.map (fun x => if x.id == 10 && x.user_id == 7 then tr else x) ∧
      ("scheduled" = "scheduled" → arrivedTrip.id = 10 → arrivedTrip.user_id = 7 →
        arrivedTrip ∈ arrivedDB.trips →
        (tripsDelete (tripsPut [] arrivedDB 7 10 rescheduleBody "2024-04-04T00:00:00Z").2
            7 10).1 = .ok "Trip deleted successfully" ∧
        (tripsDelete (tripsPut [] arrivedDB 7 10 rescheduleBody "2024-04-04T00:00:00Z").2
            7 10).2.trips =
          (tripsPut [] arrivedDB 7 10 rescheduleBody "2024-04-04T00:00:00Z").2.trips.filter
            (fun x => !(x.id == 10 && x.user_id == 7))) :=
  C10_status_not_enforced [] arrivedDB 7 10 rescheduleBody "2024-04-04T00:00:00Z" arrivedTrip
    witnessPlane "scheduled" rfl rfl rfl rfl rfl rfl (by decide)

/-! ### Claim C6 -/

/-- C6: a trip may be deleted only while scheduled: the delete of a
scheduled trip succeeds and removes the row, while a delete of a departed
or arrived trip fails and leaves the store unchanged. -/
theorem C6_trip_delete_scheduled_only :
    ∀ (db : DB) (userId tripId : ℕ) (t : Trip),
      t ∈ db.trips → t.id = tripId → t.user_id = userId →
      (∀ t2 ∈ db.trips, t2.id = tripId → t2.user_id = userId → t2 = t) →
      (t.status = "scheduled" →
        (tripsDelete db userId tripId).1 = .ok "Trip deleted successfully" ∧
        (tripsDelete db userId tripId).2.trips =
          db.trips.filter (fun x => !(x.id == tripId && x.user_id == userId))) ∧
      ((t.status = "departed" ∨ t.status = "arrived") →
        tripsDelete db userId tripId = (.error (404, "Trip not found or cannot be deleted"), db)) := by
  intro db userId tripId t hmem hid huid huniq
  constructor
  · intro hsched
    have hsome : (db.trips.find?
        (fun x => x.id == tripId && x.user_id == userId && x.status == "scheduled")).isSome :=
      List.find?_isSome.2 ⟨t, hmem, by simp [hid, huid, hsched]⟩
    cases hfind : db.trips.find?
        (fun x => x.id == tripId && x.user_id == userId && x.status == "scheduled") with
    | none =>
      rw [hfind] at hsome
      simp at hsome
    | some u =>
      constructor
      · show (tripsDelete db userId tripId).1 = _
        rw [tripsDelete]
        simp only [hfind]
      · show (tripsDelete db userId tripId).2.trips = _
        rw [tripsDelete]
        simp only [hfind]
  · intro hd
    have hnone : db.trips.find?
        (fun x => x.id == tripId && x.user_id == userId && x.status == "scheduled") = none := by
      rw [List.find?_eq_none]
      intro x hx hpx
      simp only [Bool.and_eq_true, beq_iff_eq] at hpx
      obtain ⟨⟨h1, h2⟩, h3⟩ := hpx
      have hxt := huniq x hx h1 h2
      rw [hxt] at h3
      rcases hd with hd | hd <;> rw [hd] at h3 <;> simp at h3
    rw [tripsDelete]
    simp only [hnone]

/-- Witness for C6: the scheduled trip (id 10) deletes successfully and
the departed trip (id 11) does not. -/
theorem C6_trip_delete_scheduled_only_witness :
    ((tripsDelete mixedDB 7 10).1 = .ok "Trip deleted successfully" ∧
      (tripsDelete mixedDB 7 10).2.trips =
        mixedDB.trips.filter (fun x => !(x.id == 10 && x.user_id == 7))) ∧
    tripsDelete mixedDB 7 11 = (.error (404, "Trip not found or cannot be deleted"), mixedDB) :=
  ⟨(C6_trip_delete_scheduled_only mixedDB 7 10 scheduledTrip (by decide) rfl rfl
      (by decide)).1 rfl,
   (C6_trip_delete_scheduled_only mixedDB 7 11 departedTrip (by decide) rfl rfl
      (by decide)).2 (Or.inl rfl)⟩

/-! ### Claim C5 -/

/-- C5: deleting a plane (or pilot) with zero referencing trips succeeds
and removes the record; deleting one referenced by at least one trip, in
any status, fails with the referential-conflict error and leaves the
store unchanged; consequently every delete preserves the referential
integrity of `plane_id` / `pilot_id` foreign keys. -/
theorem C5_delete_referential_guard :
    ∀ (db : DB) (userId entityId : ℕ),
      ((db.trips.filter (fun t => t.plane_id == entityId)) = [] →
        db.planes.any (fun p => p.id == entityId && p.user_id == userId) = true →
        planesDelete db userId entityId =
          (.ok "Plane deleted successfully",
           { db with planes :=
              db.planes.filter (fun p => !(p.id == entityId && p.user_id == userId)) })) ∧
      (∀ t ∈ db.trips, t.plane_id = entityId →
        planesDelete db userId entityId =
          (.error (400, "Cannot delete plane with associated trips"), db)) ∧
      ((db.trips.filter (fun t => t.pilot_id == some entityId)) = [] →
        db.pilots.any (fun p => p.id == entityId && p.user_id == userId) = true →
        pilotsDelete db userId entityId =
          (.ok "Pilot deleted successfully",
           { db with pilots :=
              db.pilots.filter (fun p => !(p.id == entityId && p.user_id == userId)) })) ∧
      (∀ t ∈ db.trips, t.pilot_id = some entityId →
        pilotsDelete db userId entityId =
          (.error (400, "Cannot delete pilot with associated trips"), db)) ∧
      ((∀ t ∈ db.trips, ∃ p ∈ db.planes, p.id = t.plane_id) →
        ∀ t ∈ (planesDelete db userId entityId).2.trips,
          ∃ p ∈ (planesDelete db userId entityId).2.planes, p.id = t.plane_id) ∧
      ((∀ t ∈ db.trips, ∀ pid, t.pilot_id = some pid → ∃ p ∈ db.pilots, p.id = pid) →
        ∀ t ∈ (pilotsDelete db userId entityId).2.trips, ∀ pid, t.pilot_id = some pid →
          ∃ p ∈ (pilotsDelete db userId entityId).2.pilots, p.id = pid) := by
  intro db userId entityId
  refine ⟨?_, ?_, ?_, ?_, ?_, ?_⟩
  · intro hfil hany
    rw [planesDelete, hfil, if_neg (by simp), if_pos hany]
  · intro t hmem hpid
    have hin : t ∈ db.trips.filter (fun x => x.plane_id == entityId) :=
      List.mem_filter.2 ⟨hmem, by simp [hpid]⟩
    rw [planesDelete,
      if_pos (List.length_pos.2 (List.ne_nil_of_mem hin))]
  · intro hfil hany
    rw [pilotsDelete, hfil, if_neg (by simp), if_pos hany]
  · intro t hmem hpid
    have hin : t ∈ db.trips.filter (fun x => x.pilot_id == some entityId) :=
      List.mem_filter.2 ⟨hmem, by simp [hpid]⟩
    rw [pilotsDelete,
      if_pos (List.length_pos.2 (List.ne_nil_of_mem hin))]
  · intro hinv t ht
    by_cases h1 : (db.trips.filter (fun t => t.plane_id == entityId)).length > 0
    · rw [planesDelete, if_pos h1] at ht ⊢
      exact hinv t ht
    · by_cases h2 : db.planes.any (fun p => p.id == entityId && p.user_id == userId) = true
      · rw [planesDelete, if_neg h1, if_pos h2] at ht ⊢
        obtain ⟨p, hp, hpid⟩ := hinv t ht
        have hne : p.id ≠ entityId := by
          intro he
          have hin : t ∈ db.trips.filter (fun x => x.plane_id == entityId) :=
            List.mem_filter.2 ⟨ht, by simp [← hpid, he]⟩
          exact h1 (List.length_pos.2 (List.ne_nil_of_mem hin))
        exact ⟨p, List.mem_filter.2 ⟨hp, by simp [hne]⟩, hpid⟩
      · rw [planesDelete, if_neg h1, if_neg h2] at ht ⊢
        exact hinv t ht
  · intro hinv t ht pid hpid
    by_cases h1 : (db.trips.filter (fun t => t.pilot_id == some entityId)).length > 0
    · rw [pilotsDelete, if_pos h1] at ht ⊢
      exact hinv t ht pid hpid
    · by_cases h2 : db.pilots.any (fun p => p.id == entityId && p.user_id == userId) = true
      · rw [pilotsDelete, if_neg h1, if_pos h2] at ht ⊢
        obtain ⟨p, hp, hpid2⟩ := hinv t ht pid hpid
        have hne : p.id ≠ entityId := by
          intro he
          have hin : t ∈ db.trips.filter (fun x => x.pilot_id == some entityId) :=
            List.mem_filter.2 ⟨ht, by simp [hpid, ← hpid2, he]⟩
          exact h1 (List.length_pos.2 (List.ne_nil_of_mem hin))
        exact ⟨p, List.mem_filter.2 ⟨hp, by simp [hne]⟩, hpid2⟩
      · rw [pilotsDelete, if_neg h1, if_neg h2] at ht ⊢
        exact hinv t ht pid hpid

/-- Witness for C5: with no trips the plane delete succeeds; with the
scheduled trip referencing plane 1 the delete is blocked. -/
theorem C5_delete_referential_guard_witness :
    planesDelete cleanDB 7 1 =
      (.ok "Plane deleted successfully",
       { cleanDB with planes :=
          cleanDB.planes.filter (fun p => !(p.id == 1 && p.user_id == 7)) }) ∧
    planesDelete tripDB 7 1 =
      (.error (400, "Cannot delete plane with associated trips"), tripDB) :=
  ⟨(C5_delete_referential_guard cleanDB 7 1).1 rfl rfl,
   (C5_delete_referential_guard tripDB 7 1).2.1 scheduledTrip (by decide) rfl⟩

/-! ### Claim C8 -/

/-- C8: queries of length 0 or 1 yield an empty list as a normal (200)
result, and queries of length at least 2 yield exactly the airports whose
ICAO, IATA, name, or city contains the query case-insensitively, truncated
to 10 results with `[longitude, latitude]` coordinate pairs, as worded by
the specification contract `airportsSearchSpec`. -/
theorem C8_airport_search :
    ∀ (airports : List Airport) (query : String),
      (query.length < 2 → airportsSearch airports query = .ok []) ∧
      (2 ≤ query.length →
        airportsSearch airports query = .ok (airportsSearchSpec airports query)) := by
  intro airports query
  constructor
  · intro h
    rw [airportsSearch, if_pos (Or.inr h)]
  · intro h
    have hq : ¬(query = "" ∨ query.length < 2) := by
      rintro (h1 | h1)
      · rw [h1] at h
        simp at h
      · omega
    rw [airportsSearch, if_neg hq, airportsSearchSpec, if_neg (by omega)]
    have hne : jsToLower query ≠ [] := by
      have hlen : (jsToLower query).length = query.length := by
        rw [jsToLower, List.length_map]
        rfl
      intro hnil
      rw [hnil] at hlen
      simp at hlen
      omega
    congr 2
    congr 1
    apply List.filter_congr
    intro a _
    by_cases hiata : a.iata = ""
    · have hlow : jsToLower a.iata = [] := by rw [hiata]; rfl
      have hempty : jsIncludes (jsToLower a.iata) (jsToLower query) = false := by
        rw [hlow, jsIncludes]
        cases hc : jsToLower query with
        | nil => exact absurd hc hne
        | cons c cs => rfl
      have hfalse : (a.iata != "") = false := by simp [hiata]
      rw [hempty, hfalse, Bool.false_and]
      cases jsIncludes (jsToLower a.icao) (jsToLower query) <;>
        cases jsIncludes (jsToLower a.name) (jsToLower query) <;>
        cases jsIncludes (jsToLower a.city) (jsToLower query) <;> rfl
    · have htrue : (a.iata != "") = true := by simp [hiata]
      rw [htrue, Bool.true_and]
      cases jsIncludes (jsToLower a.icao) (jsToLower query) <;>
        cases jsIncludes (jsToLower a.iata) (jsToLower query) <;>
        cases jsIncludes (jsToLower a.name) (jsToLower query) <;>
        cases jsIncludes (jsToLower a.city) (jsToLower query) <;> rfl

/-- Witness for C8: the one-character query yields the empty 200 result and
the two-character query matches the specification contract, on the
concrete two-airport catalog. -/
theorem C8_airport_search_witness :
    airportsSearch testAirports "K" = .ok [] ∧
    airportsSearch testAirports "KJ" = .ok (airportsSearchSpec testAirports "KJ") :=
  ⟨(C8_airport_search testAirports "K").1 (by decide),
   (C8_airport_search testAirports "KJ").2 (by decide)⟩

end GoChart
